import Mathlib

/-!
Shallow embedding of the udiskstui session coordinator.

The repository mixes several evolutionary revisions of the same subsystem:

* `src/device.rs` + `src/app.rs`: the task-pool revision.  `App` owns a
  `VecDeque` of spawned tasks, a flat `reading_passphrase` flag, and applies
  completion `Message`s to its registry of `GuiDevice`s.
* `src/main.rs`: a channel-based revision.  A udisks worker task receives
  `TuiMessage`s, performs mount/unmount on a `BlockDeviceUsage` value and
  sends back `UDisks2Message`s; `checked` converts operation errors to an
  `Err` status message.
* `src/tui.rs` + `src/mypolkit/imp.rs`: the polkit-agent revision.  The
  session state is a proper `AppState` enum whose `ReadingAgentPassword`
  variant owns a single-use oneshot responder; the polkit listener blocks on
  the matching receiver.

Each Rust function that a claim touches is translated here as a pure Lean
function.  D-Bus state observed and mutated by a device operation is folded
into a per-device world record `UDisksDevice`; the mount point that udisks
would pick on a successful mount call is a field of that world, so the
functions stay deterministic and executable.
-/

set_option autoImplicit false

namespace Udiskstui

/-! ## Device-side data model (src/udisks2.rs, src/device.rs) -/

/-- `BlockDeviceKind` from src/udisks2.rs: a block device is used either as a
plain filesystem or as an encrypted (LUKS) container. -/
inductive BlockDeviceKind where
  | filesystem
  | encrypted
deriving DecidableEq, Repr

/-- `DeviceState` from src/device.rs. -/
inductive DeviceState where
  | Locked
  | UnmountedUnlocked
  | Mounted
  | Unmounted
deriving DecidableEq, Repr

/-- `GuiDeviceInfo` from src/app.rs: the display attributes of one device. -/
structure GuiDeviceInfo where
  name : String
  label : String
  size : String
  mount_point : String
deriving DecidableEq, Repr

/-- `GuiDevice` from src/app.rs. -/
structure GuiDevice where
  info : GuiDeviceInfo
  state : DeviceState
deriving DecidableEq, Repr

/-- Per-device world: the D-Bus state of one block device as read and written
by the functions in src/device.rs.

* For `kind = filesystem`, `fsMountPoints` models
  `FilesystemProxy::mount_points` at the device's own object path.
* For `kind = encrypted`, `cleartext = none` models an empty
  `EncryptedProxy::cleartext_device` path (length not `> 1`, i.e. locked) and
  `cleartext = some mps` models an unlocked container whose cleartext
  filesystem currently has mount points `mps`.
* `svcMountPoint` is the mount point the udisks service assigns when a
  `Mount` call succeeds.
* `attrName`/`attrLabel`/`attrSize` model `Device::get_name`,
  `Device::get_label` and `Device::get_size` reads over `BlockProxy`. -/
structure UDisksDevice where
  kind : BlockDeviceKind
  fsMountPoints : List String
  cleartext : Option (List String)
  svcMountPoint : String
  attrName : String
  attrLabel : String
  attrSize : String
deriving DecidableEq, Repr

/-- `DeviceMessage` from src/device.rs (the revision that has `Ejected`). -/
inductive DeviceMessage where
  | Mounted (idx : Nat) (mount_point : String)
  | Unmounted (idx : Nat)
  | Locked (idx : Nat)
  | UnmountedAndLocked (idx : Nat) (info : GuiDeviceInfo)
  | UnlockedAndMounted (idx : Nat) (mount_point : String) (info : GuiDeviceInfo)
  | AlreadyMounted (idx : Nat) (mount_point : String)
  | AlreadyUnmounted (idx : Nat)
  | AlreadyLocked (idx : Nat)
  | PassphraseRequired (idx : Nat)
  | Ejected (idx : Nat)
deriving DecidableEq, Repr

namespace Device

/-- `Device::mount` (src/device.rs, lines 56-119).

For an encrypted device: a non-empty cleartext path means the container is
already unlocked and the cleartext filesystem is mounted like a plain
filesystem; an empty cleartext path with no passphrase returns
`PassphraseRequired` without touching the device; with a passphrase the
container is unlocked, its cleartext filesystem mounted, and the fresh
attributes are returned in `UnlockedAndMounted`.  For a plain filesystem the
device is mounted unless a mount point already exists. -/
def mount (idx : Nat) (passphrase : Option String) (w : UDisksDevice) :
    UDisksDevice × DeviceMessage :=
  match w.kind with
  | .encrypted =>
    match w.cleartext with
    | some mps =>
      match mps.head? with
      | some mp => (w, .AlreadyMounted idx mp)
      | none => ({ w with cleartext := some [w.svcMountPoint] }, .Mounted idx w.svcMountPoint)
    | none =>
      match passphrase with
      | none => (w, .PassphraseRequired idx)
      | some _ =>
        ({ w with cleartext := some [w.svcMountPoint] },
          .UnlockedAndMounted idx w.svcMountPoint
            ⟨w.attrName, w.attrLabel, w.attrSize, w.svcMountPoint⟩)
  | .filesystem =>
    match w.fsMountPoints.head? with
    | some mp => (w, .AlreadyMounted idx mp)
    | none => ({ w with fsMountPoints := [w.svcMountPoint] }, .Mounted idx w.svcMountPoint)

/-- `Device::unmount` (src/device.rs, lines 121-172).

A plain filesystem is unmounted unless it has no mount points.  An unlocked
encrypted container is locked (after unmounting its cleartext filesystem if
mounted); a locked one answers `AlreadyLocked` unchanged. -/
def unmount (idx : Nat) (w : UDisksDevice) : UDisksDevice × DeviceMessage :=
  match w.kind with
  | .filesystem =>
    if w.fsMountPoints.isEmpty then (w, .AlreadyUnmounted idx)
    else ({ w with fsMountPoints := [] }, .Unmounted idx)
  | .encrypted =>
    match w.cleartext with
    | some mps =>
      if mps.isEmpty then ({ w with cleartext := none }, .Locked idx)
      else ({ w with cleartext := none },
        .UnmountedAndLocked idx ⟨w.attrName, w.attrLabel, w.attrSize, ""⟩)
    | none => (w, .AlreadyLocked idx)

/-- `Device::eject` (src/device.rs, lines 174-186): ejects the drive behind
the device and reports `Ejected`; none of the per-device state read by the
other operations is modified. -/
def eject (idx : Nat) (w : UDisksDevice) : UDisksDevice × DeviceMessage :=
  (w, .Ejected idx)

/-- `Device::get_state` (src/device.rs, lines 202-236). -/
def get_state (w : UDisksDevice) : DeviceState :=
  match w.kind with
  | .filesystem => if w.fsMountPoints.isEmpty then .Unmounted else .Mounted
  | .encrypted =>
    match w.cleartext with
    | none => .Locked
    | some mps => if mps.isEmpty then .UnmountedUnlocked else .Mounted

end Device

/-! ## Interactive session (src/app.rs, task-pool revision) -/

/-- `Message` from src/app.rs (no `Ejected` variant in this revision). -/
inductive Message where
  | Mounted (idx : Nat) (mount_point : String)
  | Unmounted (idx : Nat)
  | Locked (idx : Nat)
  | UnmountedAndLocked (idx : Nat) (info : GuiDeviceInfo)
  | UnlockedAndMounted (idx : Nat) (mount_point : String) (info : GuiDeviceInfo)
  | AlreadyMounted (idx : Nat) (mount_point : String)
  | AlreadyUnmounted (idx : Nat)
  | AlreadyLocked (idx : Nat)
  | Devices (gui : List GuiDevice) (devs : List UDisksDevice)
  | PassphraseRequired (idx : Nat)
deriving DecidableEq, Repr

/-- One handle in `App::tasks` (`JoinHandle<Result<Message>>`): whether the
task has already finished at the time of this tick's scan, and the result it
produces (for an unfinished task, the result it will eventually produce, read
only when the handle is awaited). -/
structure TaskH where
  finished : Bool
  result : Except String Message
deriving Repr

/-- The fields of `App` (src/app.rs) other than the task queue, the tokio
runtime and the D-Bus client.  `devices` is the `Arc<Vec<Device>>` snapshot
shared with background tasks, `gui_devices` the display registry. -/
structure AppCore where
  gui_devices : List GuiDevice
  devices : List UDisksDevice
  selected_device_index : Nat
  passphrase : Option String
  reading_passphrase : Bool
  state_msg : Option String
  exit : Bool
  exit_mount_point : Option String
  print_on_exit : Bool
deriving Repr

/-- The full `App`: core fields plus the `VecDeque` of spawned tasks. -/
structure AppS where
  core : AppCore
  tasks : List TaskH
deriving Repr

/-- `App::handle_message` (src/app.rs, lines 220-302).  Rust indexes
`self.gui_devices[idx]`; an out-of-bounds index panics, modelled as `none`. -/
def handle_message (msg : Message) (c : AppCore) : Option AppCore :=
  match msg with
  | .Devices gui devs =>
    some { c with gui_devices := gui, devices := devs, selected_device_index := 0,
                  state_msg := none, exit_mount_point := none, print_on_exit := false }
  | .Mounted idx mp =>
    match c.gui_devices.get? idx with
    | none => none
    | some d =>
      some { c with
        gui_devices := c.gui_devices.set idx
          { d with state := .Mounted, info := { d.info with mount_point := mp } },
        state_msg := some ("Mounted " ++ d.info.name ++ " at " ++ mp),
        exit_mount_point := some mp }
  | .Unmounted idx =>
    match c.gui_devices.get? idx with
    | none => none
    | some d =>
      some { c with
        gui_devices := c.gui_devices.set idx
          { d with state := .Unmounted, info := { d.info with mount_point := "" } },
        state_msg := some ("Unmounted " ++ d.info.name) }
  | .Locked idx =>
    match c.gui_devices.get? idx with
    | none => none
    | some d =>
      some { c with
        gui_devices := c.gui_devices.set idx
          { d with state := .Locked, info := { d.info with mount_point := "" } },
        state_msg := some ("Locked " ++ d.info.name) }
  | .UnmountedAndLocked idx info =>
    match c.gui_devices.get? idx with
    | none => none
    | some _ =>
      some { c with
        gui_devices := c.gui_devices.set idx { info := info, state := .Locked },
        state_msg := some ("Unmounted and locked " ++ info.name) }
  | .UnlockedAndMounted idx mp info =>
    match c.gui_devices.get? idx with
    | none => none
    | some _ =>
      some { c with
        gui_devices := c.gui_devices.set idx { info := info, state := .Mounted },
        state_msg := some ("Unlocked and mounted " ++ info.name ++ " at " ++ mp),
        exit_mount_point := some mp }
  | .AlreadyMounted idx mp =>
    match c.gui_devices.get? idx with
    | none => none
    | some d =>
      some { c with
        gui_devices := c.gui_devices.set idx
          { d with state := .Mounted, info := { d.info with mount_point := mp } },
        state_msg := some ("Already mounted " ++ d.info.name ++ " at " ++ mp),
        exit_mount_point := some mp }
  | .AlreadyUnmounted idx =>
    match c.gui_devices.get? idx with
    | none => none
    | some d =>
      some { c with
        gui_devices := c.gui_devices.set idx
          { d with state := .Unmounted, info := { d.info with mount_point := "" } },
        state_msg := some ("Already unmounted " ++ d.info.name) }
  | .AlreadyLocked idx =>
    match c.gui_devices.get? idx with
    | none => none
    | some d =>
      some { c with
        gui_devices := c.gui_devices.set idx
          { d with state := .Locked, info := { d.info with mount_point := "" } },
        state_msg := some ("Already unmounted and locked " ++ d.info.name) }
  | .PassphraseRequired idx =>
    some { c with reading_passphrase := true, selected_device_index := idx }

/-- The effect of awaiting one finished task's result, shared by the scan in
`App::check_finished_tasks` and by the exit-time drain in `App::run`: a
success is applied through `handle_message`, an error is converted to the
`Error: ...` status text and clears the exit flag. -/
def applyResult (r : Except String Message) (c : AppCore) : Option AppCore :=
  match r with
  | .ok msg => handle_message msg c
  | .error e => some { c with state_msg := some ("Error: " ++ e), exit := false }

/-- Sequential application of a list of task results, oldest first. -/
def applyResults : List (Except String Message) → AppCore → Option AppCore
  | [], c => some c
  | r :: rs, c => (applyResult r c).bind (applyResults rs)

/-- The body of the `for _ in 0..self.tasks.len()` loop in
`App::check_finished_tasks` (src/app.rs, lines 378-397), counting down the
number of pops still to perform: pop the front task; a finished one is
awaited and its result applied, an unfinished one is pushed to the back. -/
def cftGo : Nat → AppS → Option AppS
  | 0, app => some app
  | n + 1, app =>
    match app.tasks with
    | [] => some app
    | t :: rest =>
      if t.finished then
        match t.result with
        | .ok msg =>
          match handle_message msg app.core with
          | none => none
          | some c => cftGo n ⟨c, rest⟩
        | .error e =>
          cftGo n ⟨{ app.core with state_msg := some ("Error: " ++ e), exit := false }, rest⟩
      else cftGo n ⟨app.core, rest ++ [t]⟩

/-- `App::check_finished_tasks` (src/app.rs, lines 378-397): the queue is
scanned exactly `self.tasks.len()` times, the length taken once at entry. -/
def check_finished_tasks (app : AppS) : Option AppS :=
  cftGo app.tasks.length app

/-- `App::next_device` (src/app.rs, lines 192-200). -/
def next_device (c : AppCore) : AppCore :=
  if c.gui_devices.isEmpty then c
  else if c.gui_devices.length - 1 > c.selected_device_index then
    { c with selected_device_index := c.selected_device_index + 1 }
  else c

/-- `App::prev_device` (src/app.rs, lines 202-206). -/
def prev_device (c : AppCore) : AppCore :=
  if c.selected_device_index > 0 then
    { c with selected_device_index := c.selected_device_index - 1 }
  else c

/-- `App::last_device` (src/app.rs, lines 208-214). -/
def last_device (c : AppCore) : AppCore :=
  if c.gui_devices.isEmpty then c
  else { c with selected_device_index := c.gui_devices.length - 1 }

/-- `App::first_device` (src/app.rs, lines 216-218). -/
def first_device (c : AppCore) : AppCore :=
  { c with selected_device_index := 0 }

/-- `App::mount` (src/app.rs, lines 304-321).  With no devices it returns
`Ok(())` immediately without spawning.  Otherwise the passphrase is taken,
a task is spawned (its eventual outcome is the parameter `t`, since the
operation runs against the live system), and the `Mounting ...` status is
formatted from `self.gui_devices[idx]` — out of bounds panics (`none`). -/
def appMount (t : TaskH) (app : AppS) : Option AppS :=
  if app.core.devices.isEmpty then some app
  else
    match app.core.gui_devices.get? app.core.selected_device_index with
    | none => none
    | some d =>
      some ⟨{ app.core with
              passphrase := none
              state_msg := some ("Mounting " ++ d.info.name ++ "...") },
            app.tasks ++ [t]⟩

/-- `App::unmount` (src/app.rs, lines 323-341), analogous to `appMount`. -/
def appUnmount (t : TaskH) (app : AppS) : Option AppS :=
  if app.core.devices.isEmpty then some app
  else
    match app.core.gui_devices.get? app.core.selected_device_index with
    | none => none
    | some d =>
      some ⟨{ app.core with
              state_msg := some ("Unmounting " ++ d.info.name ++ "...") },
            app.tasks ++ [t]⟩

/-- `App::refresh` (src/app.rs, lines 343-353) followed by
`App::get_or_refresh_devices` (lines 355-369): resets the interactive fields
and unconditionally spawns a full device-listing task (eventual outcome
`t`).  The existing task queue is left in place. -/
def appRefresh (t : TaskH) (app : AppS) : AppS :=
  ⟨{ app.core with
     selected_device_index := 0
     passphrase := none
     reading_passphrase := false
     state_msg := none
     exit := false
     exit_mount_point := none
     print_on_exit := false },
   app.tasks ++ [t]⟩

/-- Key codes distinguished by `App::handle_key_event` (crossterm
`KeyCode`). -/
inductive Key where
  | char (c : Char)
  | esc
  | enter
  | backspace
  | down
  | up
  | home
  | endKey
  | other
deriving DecidableEq, Repr

/-- `App::handle_key_event` (src/app.rs, lines 143-186).  `t` is the outcome
of the task spawned by the key, when the key spawns one.  While
`reading_passphrase` is set, the keystroke edits the passphrase buffer
(which is first initialised to `Some("")` if absent, exactly as in the
source); otherwise the key is dispatched to the device-list commands. -/
def handle_key_event (t : TaskH) (k : Key) (app : AppS) : Option AppS :=
  if app.core.reading_passphrase then
    let p := app.core.passphrase.getD ""
    let c := { app.core with passphrase := some p }
    match k with
    | .char ch => some ⟨{ c with passphrase := some (p.push ch) }, app.tasks⟩
    | .esc =>
      some ⟨{ c with passphrase := none, reading_passphrase := false, state_msg := none },
            app.tasks⟩
    | .enter => appMount t ⟨{ c with reading_passphrase := false }, app.tasks⟩
    | .backspace => some ⟨{ c with passphrase := some (p.dropRight 1) }, app.tasks⟩
    | _ => some ⟨c, app.tasks⟩
  else
    match k with
    | .esc => some ⟨{ app.core with exit := true }, app.tasks⟩
    | .down => some ⟨next_device app.core, app.tasks⟩
    | .up => some ⟨prev_device app.core, app.tasks⟩
    | .endKey => some ⟨last_device app.core, app.tasks⟩
    | .home => some ⟨first_device app.core, app.tasks⟩
    | .enter =>
      (appMount t app).map fun a => ⟨{ a.core with print_on_exit := true, exit := true }, a.tasks⟩
    | .char ch =>
      if ch = 'q' then some ⟨{ app.core with exit := true }, app.tasks⟩
      else if ch = 'j' then some ⟨next_device app.core, app.tasks⟩
      else if ch = 'k' then some ⟨prev_device app.core, app.tasks⟩
      else if ch = 'G' then some ⟨last_device app.core, app.tasks⟩
      else if ch = 'g' then some ⟨first_device app.core, app.tasks⟩
      else if ch = 'm' then appMount t app
      else if ch = 'u' then appUnmount t app
      else if ch = 'r' then some (appRefresh t app)
      else some app
    | _ => some app

/-- `App::run` (src/app.rs, lines 89-115), fuelled.  One fuel unit is one
loop iteration (or one awaited task of the exit-time drain).  While the exit
flag is unset: draw (no state effect), scan the task pool, handle at most
one input event (`none` in the event stream is a poll timeout; each supplied
event carries the outcome of the task it may spawn).  Once the exit flag is
set, the remaining tasks are awaited front to back; an error result sets the
`Error: ...` status, clears the exit flag and recursively restarts the loop,
exactly as the `return self.run(terminal)` in the source.  `Tui::run_app`
(src/tui.rs, lines 61-93) has the same structure around the same drain.
Running out of fuel is `none`: the function only answers for terminating
executions. -/
def run : Nat → List (Option (Key × TaskH)) → AppS → Option AppS
  | 0, _, _ => none
  | fuel + 1, evs, app =>
    if app.core.exit then
      match app.tasks with
      | [] => some app
      | t :: rest =>
        match t.result with
        | .ok msg =>
          match handle_message msg app.core with
          | none => none
          | some c => run fuel evs ⟨c, rest⟩
        | .error e =>
          run fuel evs
            ⟨{ app.core with state_msg := some ("Error: " ++ e), exit := false }, rest⟩
    else
      match check_finished_tasks app with
      | none => none
      | some app' =>
        match evs with
        | [] => run fuel [] app'
        | none :: rest => run fuel rest app'
        | some (k, t) :: rest =>
          match handle_key_event t k app' with
          | none => none
          | some app'' => run fuel rest app''

/-! ## Channel-based revision (src/main.rs) -/

/-- `BlockDeviceUsage` from src/udisks2.rs as consumed by src/main.rs; the
mounted usages carry their current mount point. -/
inductive BlockDeviceUsage where
  | mountedFilesystem (mount_point : String)
  | unmountedFilesystem
  | mountedUnlockedEncrypted (mount_point : String)
  | unmountedUnlockedEncrypted
  | lockedEncrypted
  | other
deriving DecidableEq, Repr

/-- `UDisks2Message` as constructed in src/main.rs (this revision's app.rs is
not under src/; the variants are exactly those main.rs sends). -/
inductive UDisks2Message where
  | Devices
  | Mounted (idx : Nat) (mount_point : String)
  | Unmounted (idx : Nat)
  | Locked (idx : Nat)
  | UnmountedAndLocked (idx : Nat)
  | UnlockedAndMounted (idx : Nat) (mount_point : String)
  | AlreadyMounted (idx : Nat) (mount_point : String)
  | AlreadyUnmounted (idx : Nat)
  | Err (text : String)
deriving DecidableEq, Repr

/-- A common vocabulary for comparing the completion messages of the two
revisions (`DeviceMessage` of src/device.rs and `UDisks2Message` of
src/main.rs) against the spec's transition table. -/
inductive CompletionKind where
  | mounted
  | unmounted
  | locked
  | unmountedAndLocked
  | unlockedAndMounted
  | alreadyMounted
  | alreadyUnmounted
  | alreadyLocked
  | passphraseRequired
  | ejected
  | devices
  | errText
deriving DecidableEq, Repr

/-- The completion kind named by a `DeviceMessage`. -/
def DeviceMessage.completionKind : DeviceMessage → CompletionKind
  | .Mounted _ _ => .mounted
  | .Unmounted _ => .unmounted
  | .Locked _ => .locked
  | .UnmountedAndLocked _ _ => .unmountedAndLocked
  | .UnlockedAndMounted _ _ _ => .unlockedAndMounted
  | .AlreadyMounted _ _ => .alreadyMounted
  | .AlreadyUnmounted _ => .alreadyUnmounted
  | .AlreadyLocked _ => .alreadyLocked
  | .PassphraseRequired _ => .passphraseRequired
  | .Ejected _ => .ejected

/-- The completion kind named by a `UDisks2Message`. -/
def UDisks2Message.completionKind : UDisks2Message → CompletionKind
  | .Devices => .devices
  | .Mounted _ _ => .mounted
  | .Unmounted _ => .unmounted
  | .Locked _ => .locked
  | .UnmountedAndLocked _ => .unmountedAndLocked
  | .UnlockedAndMounted _ _ => .unlockedAndMounted
  | .AlreadyMounted _ _ => .alreadyMounted
  | .AlreadyUnmounted _ => .alreadyUnmounted
  | .Err _ => .errText

/-- The free function `mount` in src/main.rs (lines 143-181).  `svcMp` is the
mount point a successful udisks `Mount` call assigns.  On a locked encrypted
device the source calls `passphrase.as_ref().unwrap()`: with no passphrase
this panics, modelled as `none`; the `Other` usage hits `unreachable!`, also
`none`. -/
def mainMount (svcMp : String) (idx : Nat) (passphrase : Option String) :
    BlockDeviceUsage → Option (BlockDeviceUsage × UDisks2Message)
  | .mountedFilesystem mp => some (.mountedFilesystem mp, .AlreadyMounted idx mp)
  | .unmountedFilesystem => some (.mountedFilesystem svcMp, .Mounted idx svcMp)
  | .mountedUnlockedEncrypted mp =>
    some (.mountedUnlockedEncrypted mp, .AlreadyMounted idx mp)
  | .unmountedUnlockedEncrypted =>
    some (.mountedUnlockedEncrypted svcMp, .Mounted idx svcMp)
  | .lockedEncrypted =>
    match passphrase with
    | none => none
    | some _ => some (.mountedUnlockedEncrypted svcMp, .UnlockedAndMounted idx svcMp)
  | .other => none

/-- The free function `unmount` in src/main.rs (lines 183-214). -/
def mainUnmount (idx : Nat) :
    BlockDeviceUsage → Option (BlockDeviceUsage × UDisks2Message)
  | .mountedFilesystem _ => some (.unmountedFilesystem, .Unmounted idx)
  | .unmountedFilesystem => some (.unmountedFilesystem, .AlreadyUnmounted idx)
  | .mountedUnlockedEncrypted _ => some (.lockedEncrypted, .UnmountedAndLocked idx)
  | .unmountedUnlockedEncrypted => some (.lockedEncrypted, .Locked idx)
  | .lockedEncrypted => some (.lockedEncrypted, .AlreadyUnmounted idx)
  | .other => none

/-- The error a wrapped operation future can produce in src/main.rs:
either the channel send failed (`SendError`, fatal) or the device-management
call failed with a message. -/
inductive MainErr where
  | sendErr
  | opErr (text : String)
deriving DecidableEq, Repr

/-- `checked` in src/main.rs (lines 122-141): on success the completion
message is sent and the new usage kept; a send error is propagated (fatal);
any other error is converted to an `Err` status message and the previous
usage is restored unchanged.  The returned pair is the usage stored back
into `block_devices_usage` and the message sent to the TUI. -/
def checked (prev : BlockDeviceUsage) :
    Except MainErr (BlockDeviceUsage × UDisks2Message) →
      Except MainErr (BlockDeviceUsage × UDisks2Message)
  | .ok (bdu, msg) => .ok (bdu, msg)
  | .error .sendErr => .error .sendErr
  | .error (.opErr e) => .ok (prev, .Err e)

/-! ## Polkit-agent revision (src/tui.rs, src/mypolkit/imp.rs) -/

/-- `AppState` of the revision driven by src/tui.rs, reconstructed from the
patterns src/tui.rs matches on it (its own app.rs is not under src/):
`ReadingAgentPassword` owns the single-use oneshot responder as an `Option`
so that `respond_to.take()` can consume it. -/
inductive AppState where
  | disksList
  | readingPassphrase (buffer : String)
  | readingAgentPassword (name : String) (password : String) (respondTo : Option Unit)
deriving DecidableEq, Repr

/-- What a keystroke in a modal state does besides changing the state. -/
inductive TuiAction where
  | noAction
  | mountWith (passphrase : String)
  | agentSend (password : String)
deriving DecidableEq, Repr

/-- The two modal-state branches of `Tui::handle_key_event` (src/tui.rs,
lines 108-163).  In the agent-password branch, Enter does
`respond_to.take().unwrap().send(password)` — `none` responder panics,
modelled as `none` — and Escape replaces the state with `DisksList`,
dropping the state value and with it the responder.  When the active state
is `DisksList` the keystroke falls through to the device-list dispatch
(lines 165-182), which acts on the `App` of the revision not under src/;
that case is `none` here and is not used by any theorem. -/
def tuiModalKey (k : Key) : AppState → Option (AppState × TuiAction)
  | .readingPassphrase buf =>
    match k with
    | .char c => some (.readingPassphrase (buf.push c), .noAction)
    | .esc => some (.disksList, .noAction)
    | .enter => some (.disksList, .mountWith buf)
    | .backspace => some (.readingPassphrase (buf.dropRight 1), .noAction)
    | _ => some (.readingPassphrase buf, .noAction)
  | .readingAgentPassword name pw r =>
    match k with
    | .char c => some (.readingAgentPassword name (pw.push c) r, .noAction)
    | .esc => some (.disksList, .noAction)
    | .enter =>
      match r with
      | none => none
      | some _ => some (.disksList, .agentSend pw)
    | .backspace => some (.readingAgentPassword name (pw.dropRight 1) r, .noAction)
    | _ => some (.readingAgentPassword name pw r, .noAction)
  | .disksList => none

/-- Whether a session state holds a live responder. -/
def AppState.holdsResponder : AppState → Bool
  | .readingAgentPassword _ _ (some _) => true
  | _ => false

/-- The final state of the oneshot channel whose sender the
`ReadingAgentPassword` state owned: the session either sent a password
through it or dropped it. -/
inductive ChannelFate where
  | sentVal (password : String)
  | dropped
deriving DecidableEq, Repr

/-- `receiver.blocking_recv()` in `start_session` (src/mypolkit/imp.rs,
line 83) once the sender's fate is decided: a sent value is received,
a dropped sender is a receive error (`none`). -/
def oneshotRecv : ChannelFate → Option String
  | .sentVal pw => some pw
  | .dropped => none

/-- How the blocked polkit thread resumes. -/
inductive AgentOutcome where
  | responded (password : String)
  | cancelled
deriving DecidableEq, Repr

/-- The tail of the `connect_request` handler in `start_session`
(src/mypolkit/imp.rs, lines 83-88): a received password is passed to
`session.response`, a receive error cancels the session and the
authentication attempt (`session.cancel(); cancellable.cancel()`). -/
def sessionRequestOutcome (recvResult : Option String) : AgentOutcome :=
  match recvResult with
  | some pw => .responded pw
  | none => .cancelled

/-! ## Eject handling in the session -/

/-- Modelled from the spec: the session-side handling of the `Ejected`
completion message.  The app.rs revision that matches src/tui.rs (whose `e`
key calls `self.app.eject()`) is not under src/, so this follows the spec's
words: eject "triggers a full Registry refresh, then Ejected status", and
Scenario 5 expects "a status message confirming ejection of that device's
prior display name".  The returned flag records that a full registry
refresh task was spawned; the status names the device's prior display
name. -/
def handleEjectedSpec (idx : Nat) (c : AppCore) : Option (AppCore × Bool) :=
  match c.gui_devices.get? idx with
  | none => none
  | some d => some ({ c with state_msg := some ("Ejected " ++ d.info.name) }, true)

/-! ## Concrete fixtures used by witnesses and counterexamples -/

/-- A locked encrypted device world. -/
def sampleLockedDev : UDisksDevice :=
  ⟨.encrypted, [], none, "/mnt/secret", "/dev/sdc1", "vault", "32 GB"⟩

/-- A plain unmounted filesystem device world. -/
def sampleFsDev : UDisksDevice :=
  ⟨.filesystem, [], none, "/mnt/data", "/dev/sda1", "data", "10 GB"⟩

/-- Display row for the filesystem device. -/
def sampleGui0 : GuiDevice := ⟨⟨"/dev/sda1", "data", "10 GB", ""⟩, .Unmounted⟩

/-- Display row for the locked encrypted device. -/
def sampleGui1 : GuiDevice := ⟨⟨"/dev/sdc1", "vault", "32 GB", ""⟩, .Locked⟩

/-- An idle session over the two sample devices. -/
def sampleCore : AppCore :=
  { gui_devices := [sampleGui0, sampleGui1]
    devices := [sampleFsDev, sampleLockedDev]
    selected_device_index := 0
    passphrase := none
    reading_passphrase := false
    state_msg := none
    exit := false
    exit_mount_point := none
    print_on_exit := false }

/-- A session over an empty device list. -/
def emptyCore : AppCore :=
  { gui_devices := []
    devices := []
    selected_device_index := 0
    passphrase := none
    reading_passphrase := false
    state_msg := none
    exit := false
    exit_mount_point := none
    print_on_exit := false }

/-- The sample session with the exit flag raised. -/
def sampleExitCore : AppCore := { sampleCore with exit := true }

/-- Exiting session with no tasks in flight. -/
def sampleExitApp : AppS := ⟨sampleExitCore, []⟩

/-- An in-flight task that will report the first device unmounted. -/
def sampleTask : TaskH := ⟨false, .ok (.Unmounted 0)⟩

/-- The sample session with a mount task for device 1 still in flight. -/
def c7app : AppS :=
  ⟨{ sampleCore with selected_device_index := 1 }, [⟨false, .ok (.Mounted 1 "/mnt/secret")⟩]⟩

/-- A finished refresh task whose device listing has a single device. -/
def c7refreshTask : TaskH := ⟨true, .ok (.Devices [sampleGui0] [sampleFsDev])⟩

/-! ## Task-pool scan specification -/

/-- One pass of the scan loop, started with `pending` tasks still to pop and
`requeued` tasks already pushed back, equals: apply the results of the
finished tasks of `pending` in queue order, and keep the unfinished ones
behind `requeued` in their relative order. -/
theorem cftGo_spec (pending requeued : List TaskH) (c : AppCore) :
    cftGo pending.length ⟨c, pending ++ requeued⟩ =
      (applyResults ((pending.filter fun t => t.finished).map fun t => t.result) c).map
        (fun c' => (⟨c', requeued ++ pending.filter fun t => !t.finished⟩ : AppS)) := by
  induction pending generalizing requeued c with
  | nil => simp [cftGo, applyResults]
  | cons t rest ih =>
    cases hf : t.finished with
    | false =>
      simp only [List.length_cons, cftGo, List.cons_append, hf, Bool.false_eq_true, if_false,
        List.filter_cons, Bool.not_false]
      rw [List.append_assoc, ih]
      simp
    | true =>
      simp only [List.length_cons, cftGo, List.cons_append, hf, if_true, List.filter_cons,
        Bool.not_true, List.map_cons]
      cases hr : t.result with
      | ok msg =>
        simp only [applyResults, applyResult]
        cases hm : handle_message msg c with
        | none => simp [hm]
        | some c' => simp [hm, ih]
      | error e =>
        simp [applyResults, applyResult, ih]

/-- C1: on every tick the task pool is scanned exactly once in insertion
order; the finished tasks are removed and their results applied in the order
they are observed within the scan, and the unfinished tasks are re-enqueued
unchanged, preserving their relative order.  Formally,
`App::check_finished_tasks` equals: sequentially apply the results of the
finished tasks, taken in queue order, to the core state, and leave exactly
the unfinished tasks in the queue, in their original relative order. -/
theorem check_finished_tasks_scan (app : AppS) :
    check_finished_tasks app =
      (applyResults ((app.tasks.filter fun t => t.finished).map fun t => t.result) app.core).map
        (fun c' => (⟨c', app.tasks.filter fun t => !t.finished⟩ : AppS)) := by
  have h := cftGo_spec app.tasks [] app.core
  simpa [check_finished_tasks] using h

/-- C2 counterexample: in the channel-based revision, the `mount` function of
src/main.rs applied to a locked encrypted device with no secret supplied does
not yield a `PassphraseRequired` completion (no such variant is even sent in
that revision): it evaluates `passphrase.as_ref().unwrap()` on `None` and
panics, modelled as `none` — no completion message and no preserved state at
all. -/
theorem mainMount_locked_no_secret :
    mainMount "/mnt/secret" 0 none .lockedEncrypted = none := rfl

/-- C2 (amended to the `Device::mount` revision, src/device.rs + src/app.rs):
for every encrypted device whose state is `Locked`, mounting with no secret
supplied leaves the whole device world unchanged (hence still `Locked`) and
yields `PassphraseRequired`, and applying that completion moves the session
into the passphrase-entry modal state on that device.  In the channel-based
revision (src/main.rs) the same situation instead panics, see the
counterexample. -/
theorem mount_locked_no_secret (w : UDisksDevice) (idx : Nat) (c : AppCore)
    (hk : w.kind = .encrypted) (hs : Device.get_state w = .Locked) :
    Device.mount idx none w = (w, .PassphraseRequired idx)
    ∧ handle_message (.PassphraseRequired idx) c =
        some { c with reading_passphrase := true, selected_device_index := idx } := by
  have hc : w.cleartext = none := by
    cases hcl : w.cleartext with
    | none => rfl
    | some mps => rcases mps with _ | ⟨m, ms⟩ <;> simp [Device.get_state, hk, hcl] at hs
  exact ⟨by simp [Device.mount, hk, hc], rfl⟩

/-- C2 witness: the amended theorem evaluated on the sample locked device. -/
theorem mount_locked_no_secret_witness :
    sampleLockedDev.kind = .encrypted ∧ Device.get_state sampleLockedDev = .Locked
    ∧ (Device.mount 1 none sampleLockedDev = (sampleLockedDev, .PassphraseRequired 1)
      ∧ handle_message (.PassphraseRequired 1) sampleCore =
          some { sampleCore with reading_passphrase := true, selected_device_index := 1 }) :=
  ⟨rfl, rfl, mount_locked_no_secret sampleLockedDev 1 sampleCore rfl rfl⟩

/-- C3 counterexample: in the channel-based revision, unmounting a locked
encrypted device yields the `AlreadyUnmounted` completion, not an
`AlreadyLocked` one (src/main.rs, lines 208-211), refuting the claim as a
statement about every unmount implementation in the repository. -/
theorem mainUnmount_locked_kind :
    (mainUnmount 0 .lockedEncrypted).map (fun p => (p.1, p.2.completionKind)) =
      some (.lockedEncrypted, .alreadyUnmounted)
    ∧ CompletionKind.alreadyUnmounted ≠ CompletionKind.alreadyLocked :=
  ⟨rfl, by decide⟩

/-- C3 (amended): for every encrypted device whose state is `Locked`,
`Device::unmount` (src/device.rs) leaves the device world unchanged — the
state stays `Locked` — and yields `AlreadyLocked`; in the channel-based
revision (src/main.rs) the usage likewise stays `LockedEncrypted` but the
completion reported is `AlreadyUnmounted`. -/
theorem unmount_locked (w : UDisksDevice) (idx : Nat)
    (hk : w.kind = .encrypted) (hs : Device.get_state w = .Locked) :
    (Device.unmount idx w = (w, .AlreadyLocked idx)
      ∧ Device.get_state (Device.unmount idx w).1 = .Locked)
    ∧ mainUnmount idx .lockedEncrypted = some (.lockedEncrypted, .AlreadyUnmounted idx) := by
  have hc : w.cleartext = none := by
    cases hcl : w.cleartext with
    | none => rfl
    | some mps => rcases mps with _ | ⟨m, ms⟩ <;> simp [Device.get_state, hk, hcl] at hs
  have hu : Device.unmount idx w = (w, .AlreadyLocked idx) := by
    simp [Device.unmount, hk, hc]
  exact ⟨⟨hu, by rw [hu]; exact hs⟩, rfl⟩

/-- C3 witness: the amended theorem evaluated on the sample locked device. -/
theorem unmount_locked_witness :
    sampleLockedDev.kind = .encrypted ∧ Device.get_state sampleLockedDev = .Locked
    ∧ ((Device.unmount 1 sampleLockedDev = (sampleLockedDev, .AlreadyLocked 1)
        ∧ Device.get_state (Device.unmount 1 sampleLockedDev).1 = .Locked)
      ∧ mainUnmount 1 .lockedEncrypted = some (.lockedEncrypted, .AlreadyUnmounted 1)) :=
  ⟨rfl, rfl, unmount_locked sampleLockedDev 1 rfl rfl⟩

/-- C4: a background task that completes with an error only sets the
`Error: ...` status text (and keeps the exit flag cleared — during the
interactive loop it already is, so nothing else changes): the device
registry, selection, passphrase state and every other session field are
untouched, and the scan returns normally rather than unwinding.  The last
conjunct is the channel-based revision's `checked` (src/main.rs): an
operation error is converted to an `Err` status message and the previous
device usage is restored unchanged. -/
theorem task_error_sets_status_only (e : String) (c : AppCore) (prev : BlockDeviceUsage) :
    applyResult (.error e) c = some { c with state_msg := some ("Error: " ++ e), exit := false }
    ∧ applyResult (.error e) { c with exit := false } =
        some { c with state_msg := some ("Error: " ++ e), exit := false }
    ∧ check_finished_tasks ⟨{ c with exit := false }, [⟨true, .error e⟩]⟩ =
        some ⟨{ c with state_msg := some ("Error: " ++ e), exit := false }, []⟩
    ∧ checked prev (.error (.opErr e)) = .ok (prev, .Err e) :=
  ⟨rfl, rfl, rfl, rfl⟩

/-- C5: while the agent-password modal state is active and holds its
single-use responder, Enter sends the entered password through the responder
and returns the session to the device list, and the polkit thread blocked in
`receiver.blocking_recv()` resumes with that password; Escape returns to the
device list without sending, the state value (and with it the responder) is
dropped, and the polkit thread observes the receive error and cancels the
authentication attempt (`session.cancel(); cancellable.cancel()`).  The
device-list state holds no responder, so either path consumes it exactly
once. -/
theorem agent_password_responder (name pw : String) :
    (tuiModalKey .enter (.readingAgentPassword name pw (some ())) =
        some (.disksList, .agentSend pw)
      ∧ sessionRequestOutcome (oneshotRecv (.sentVal pw)) = .responded pw)
    ∧ (tuiModalKey .esc (.readingAgentPassword name pw (some ())) =
        some (.disksList, .noAction)
      ∧ sessionRequestOutcome (oneshotRecv .dropped) = .cancelled)
    ∧ AppState.holdsResponder .disksList = false :=
  ⟨⟨rfl, rfl⟩, ⟨rfl, rfl⟩, rfl⟩

/-- C6: whenever `App::run` terminates normally (returns at all, for any
amount of fuel and any event stream), its task queue has been fully drained:
every outstanding background task was awaited and its result applied before
the function returned, so the process never terminates normally with a task
still in flight. -/
theorem run_normal_exit_drains :
    ∀ (fuel : Nat) (evs : List (Option (Key × TaskH))) (app s' : AppS),
      run fuel evs app = some s' → s'.tasks = [] := by
  intro fuel
  induction fuel with
  | zero => intro evs app s' h; simp [run] at h
  | succ n ih =>
    intro evs app s' h
    obtain ⟨c, tasks⟩ := app
    cases he : c.exit with
    | true =>
      cases tasks with
      | nil =>
        simp only [run, he, if_true] at h
        obtain rfl : (⟨c, []⟩ : AppS) = s' := Option.some.inj h
        rfl
      | cons t rest =>
        obtain ⟨tf, tr⟩ := t
        cases tr with
        | ok msg =>
          cases hm : handle_message msg c with
          | none => simp [run, he, hm] at h
          | some c2 =>
            simp only [run, he, if_true, hm] at h
            exact ih _ _ _ h
        | error e =>
          simp only [run, he, if_true] at h
          exact ih _ _ _ h
    | false =>
      cases hc : check_finished_tasks ⟨c, tasks⟩ with
      | none => simp [run, he, hc] at h
      | some app2 =>
        cases evs with
        | nil =>
          simp only [run, he, Bool.false_eq_true, if_false, hc] at h
          exact ih _ _ _ h
        | cons ev rest =>
          cases ev with
          | none =>
            simp only [run, he, Bool.false_eq_true, if_false, hc] at h
            exact ih _ _ _ h
          | some kt =>
            obtain ⟨k, t⟩ := kt
            cases hk : handle_key_event t k app2 with
            | none => simp [run, he, hc, hk] at h
            | some app3 =>
              simp only [run, he, Bool.false_eq_true, if_false, hc, hk] at h
              exact ih _ _ _ h

/-- C6 witness: the theorem evaluated on an exiting session whose queue is
already empty. -/
theorem run_normal_exit_drains_witness :
    run 1 [] sampleExitApp = some sampleExitApp ∧ sampleExitApp.tasks = [] :=
  ⟨rfl, run_normal_exit_drains 1 [] sampleExitApp sampleExitApp rfl⟩

/-- C7: the code does not maintain the claimed invariant.  Pressing `r`
spawns a full registry refresh even while a task that embeds the old device
index is still outstanding (`App::refresh` has no guard on `self.tasks`),
and once the refresh result shrinks the registry, applying the old task's
completion indexes `self.gui_devices` out of bounds — a panic, `none` in the
model.  Concretely: with two devices and a `Mounted 1` task in flight, the
refresh task is appended behind it; if the refresh's one-device listing is
observed first, applying `Mounted 1` afterwards crashes. -/
theorem refresh_spawned_while_task_outstanding :
    (appRefresh c7refreshTask c7app).tasks =
      [⟨false, .ok (.Mounted 1 "/mnt/secret")⟩, c7refreshTask]
    ∧ applyResults
        [Except.ok (.Devices [sampleGui0] [sampleFsDev]), Except.ok (.Mounted 1 "/mnt/secret")]
        (appRefresh c7refreshTask c7app).core = none :=
  ⟨rfl, rfl⟩

/-- C8: `Device::eject` reports `Ejected` for every device in every state,
leaving the per-device world unchanged, and the session's handling of that
completion (modelled from the spec, its revision of app.rs is not under
src/) spawns a full registry refresh and sets a status message naming the
device's prior display name. -/
theorem eject_refreshes_and_reports (w : UDisksDevice) (idx : Nat) (c : AppCore)
    (d : GuiDevice) (h : c.gui_devices.get? idx = some d) :
    Device.eject idx w = (w, .Ejected idx)
    ∧ handleEjectedSpec idx c =
        some ({ c with state_msg := some ("Ejected " ++ d.info.name) }, true) := by
  refine ⟨rfl, ?_⟩
  simp only [handleEjectedSpec, h]

/-- C8 witness: eject on the sample locked device, selected at index 1. -/
theorem eject_refreshes_and_reports_witness :
    sampleCore.gui_devices.get? 1 = some sampleGui1
    ∧ (Device.eject 1 sampleLockedDev = (sampleLockedDev, .Ejected 1)
      ∧ handleEjectedSpec 1 sampleCore =
          some ({ sampleCore with state_msg := some ("Ejected " ++ sampleGui1.info.name) },
            true)) :=
  ⟨rfl, eject_refreshes_and_reports sampleLockedDev 1 sampleCore sampleGui1 rfl⟩

/-- C9: if a task awaited during the exit-time drain completes with an
error, one drain step equals: set the `Error: ...` status, clear the exit
flag, keep the remaining tasks, and re-enter `run` on the result — the
recursive restart of the full interactive loop in the source
(`return self.run(terminal)`, src/app.rs lines 106-110 and src/tui.rs lines
78-82) — instead of terminating. -/
theorem drain_error_restarts_run (fuel : Nat) (evs : List (Option (Key × TaskH)))
    (c : AppCore) (tf : Bool) (e : String) (rest : List TaskH) (he : c.exit = true) :
    run (fuel + 1) evs ⟨c, ⟨tf, .error e⟩ :: rest⟩ =
      run fuel evs ⟨{ c with state_msg := some ("Error: " ++ e), exit := false }, rest⟩ := by
  simp [run, he]

/-- C9 witness: one drain step on the sample exiting session with a failed
task in flight. -/
theorem drain_error_restarts_run_witness :
    sampleExitCore.exit = true
    ∧ run 1 [] ⟨sampleExitCore, [⟨true, .error "boom"⟩]⟩ =
        run 0 [] ⟨{ sampleExitCore with state_msg := some ("Error: " ++ "boom"), exit := false },
          []⟩ :=
  ⟨rfl, drain_error_restarts_run 0 [] sampleExitCore true "boom" [] rfl⟩

/-- C10: every selection-navigation operation keeps the selected index in
bounds.  On a non-empty device list with an in-bounds index: next moves to
the successor saturating at `length - 1`, previous moves to the predecessor
saturating at `0`, first goes to `0`, last to `length - 1`, all staying
below the length.  On the empty list next and last leave the index where it
was, and mount and unmount return success immediately without spawning a
task. -/
theorem navigation_stays_in_bounds (c ce : AppCore) (t : TaskH) (ts : List TaskH)
    (h : c.selected_device_index < c.gui_devices.length)
    (hge : ce.gui_devices = []) (hde : ce.devices = []) :
    ((next_device c).selected_device_index =
        min (c.selected_device_index + 1) (c.gui_devices.length - 1)
      ∧ (next_device c).selected_device_index < c.gui_devices.length)
    ∧ ((prev_device c).selected_device_index = c.selected_device_index - 1
      ∧ (prev_device c).selected_device_index < c.gui_devices.length)
    ∧ ((first_device c).selected_device_index = 0
      ∧ (first_device c).selected_device_index < c.gui_devices.length)
    ∧ ((last_device c).selected_device_index = c.gui_devices.length - 1
      ∧ (last_device c).selected_device_index < c.gui_devices.length)
    ∧ (next_device ce = ce ∧ last_device ce = ce)
    ∧ appMount t ⟨ce, ts⟩ = some ⟨ce, ts⟩
    ∧ appUnmount t ⟨ce, ts⟩ = some ⟨ce, ts⟩ := by
  have hne : c.gui_devices.isEmpty = false := by
    cases hcg : c.gui_devices with
    | nil => rw [hcg] at h; simp at h
    | cons a l => simp
  have hlen : 0 < c.gui_devices.length := Nat.lt_of_le_of_lt (Nat.zero_le _) h
  refine ⟨⟨?_, ?_⟩, ⟨?_, ?_⟩, ⟨rfl, hlen⟩, ⟨?_, ?_⟩, ⟨?_, ?_⟩, ?_, ?_⟩
  · simp only [next_device, hne, Bool.false_eq_true, if_false]
    split
    next h2 => simp only; omega
    next h2 => omega
  · simp only [next_device, hne, Bool.false_eq_true, if_false]
    split
    next h2 => simp only; omega
    next h2 => exact h
  · simp only [prev_device]
    split
    next h2 => simp only
    next h2 => omega
  · simp only [prev_device]
    split
    next h2 => simp only; omega
    next h2 => exact h
  · simp [last_device, hne]
  · simp only [last_device, hne, Bool.false_eq_true, if_false]
    omega
  · simp [next_device, hge]
  · simp [last_device, hge]
  · simp [appMount, hde]
  · simp [appUnmount, hde]

/-- C10 witness: the theorem evaluated on the sample two-device session and
the empty session. -/
theorem navigation_stays_in_bounds_witness :
    (sampleCore.selected_device_index < sampleCore.gui_devices.length
      ∧ emptyCore.gui_devices = [] ∧ emptyCore.devices = [])
    ∧ (((next_device sampleCore).selected_device_index =
          min (sampleCore.selected_device_index + 1) (sampleCore.gui_devices.length - 1)
        ∧ (next_device sampleCore).selected_device_index < sampleCore.gui_devices.length)
      ∧ ((prev_device sampleCore).selected_device_index =
            sampleCore.selected_device_index - 1
        ∧ (prev_device sampleCore).selected_device_index < sampleCore.gui_devices.length)
      ∧ ((first_device sampleCore).selected_device_index = 0
        ∧ (first_device sampleCore).selected_device_index < sampleCore.gui_devices.length)
      ∧ ((last_device sampleCore).selected_device_index = sampleCore.gui_devices.length - 1
        ∧ (last_device sampleCore).selected_device_index < sampleCore.gui_devices.length)
      ∧ (next_device emptyCore = emptyCore ∧ last_device emptyCore = emptyCore)
      ∧ appMount sampleTask ⟨emptyCore, []⟩ = some ⟨emptyCore, []⟩
      ∧ appUnmount sampleTask ⟨emptyCore, []⟩ = some ⟨emptyCore, []⟩) :=
  ⟨⟨by decide, rfl, rfl⟩,
    navigation_stays_in_bounds sampleCore emptyCore sampleTask [] (by decide) rfl rfl⟩

end Udiskstui
